import Mathlib

/-!
# Verification of `api/router/pubsub/WorkflowStatusUpdateHandler.go` (devtron)

Shallow embedding of the workflow-status-update pub/sub subsystem.

The Go file registers two NATS streaming subscriptions:

* `Subscribe` (channel `WORKFLOW_STATUS_UPDATE`): decodes a `WorkflowStatus`
  and forwards it to `ciHandler.UpdateWorkflow`; no notification logic.
* `SubscribeCD` (channel `CD_WORKFLOW_STATUS_UPDATE`): decodes a
  `WorkflowStatus`, forwards it to `cdHandler.UpdateWorkflow` obtaining
  `(wfrId, wfrStatus)`, looks up the `CdWorkflowRunner` by `wfrId`,
  classifies the status string, and for terminal outcomes of Pre/Post
  workflow runners builds and dispatches one notification event.

Each handler body is embedded as a pure function from an *environment*
(the results the external collaborators would return for this message) to
a *trace* recording the externally observable effects: how many times the
message was acknowledged, which update calls and lookups were made, and
which events were passed to `eventClient.WriteEvent`.  In the Go handler
`defer msg.Ack()` makes every return path acknowledge exactly once, which
in the embedding shows up as `ackCount = 1` in every branch; the Lean
functions are total, which embeds the fact that the Go handler body
returns normally (it propagates no error and raises nothing).
-/

namespace Devtron

/-- Argo node-phase string `v1alpha1.NodeSucceeded`. -/
def nodeSucceeded : String := "Succeeded"

/-- Argo node-phase string `v1alpha1.NodeFailed`. -/
def nodeFailed : String := "Failed"

/-- Argo node-phase string `v1alpha1.NodeError`. -/
def nodeError : String := "Error"

/-- Channel name for the build-status subscription (`workflowStatusUpdate`). -/
def workflowStatusUpdate : String := "WORKFLOW_STATUS_UPDATE"

/-- Queue group for the build-status subscription. -/
def workflowStatusUpdateGroup : String := "WORKFLOW_STATUS_UPDATE_GROUP-1"

/-- Durable name for the build-status subscription. -/
def workflowStatusUpdateDurable : String := "WORKFLOW_STATUS_UPDATE_DURABLE-1"

/-- Channel name for the deploy-status subscription (`cdWorkflowStatusUpdate`). -/
def cdWorkflowStatusUpdate : String := "CD_WORKFLOW_STATUS_UPDATE"

/-- Queue group for the deploy-status subscription. -/
def cdWorkflowStatusUpdateGroup : String := "CD_WORKFLOW_STATUS_UPDATE_GROUP-1"

/-- Durable name for the deploy-status subscription. -/
def cdWorkflowStatusUpdateDurable : String := "CD_WORKFLOW_STATUS_UPDATE_DURABLE-1"

/-- `util.EventType`: `util.EventType(0)` is the unset zero value the local
variable `eventType` is initialised with; `util.Success` and `util.Fail`
are the two meaningful values assigned under the terminal-status guard. -/
inductive EventType where
  | unset
  | success
  | fail
deriving DecidableEq, Repr

/-- `bean.CdWorkflowType`: the `WorkflowType` tag of a `CdWorkflowRunner`,
one of `CD_WORKFLOW_TYPE_PRE`, `CD_WORKFLOW_TYPE_POST`,
`CD_WORKFLOW_TYPE_DEPLOY`. -/
inductive CdWorkflowType where
  | pre
  | post
  | deploy
deriving DecidableEq, Repr

/-- Event category `util.CD` passed to `eventFactory.Build`; only the one
category used by this file is modelled. -/
inductive EventCategory where
  | cd
deriving DecidableEq, Repr

/-- The decoded `v1alpha1.WorkflowStatus`.  The handler treats it as a
pass-through value (it is decoded from JSON and handed to the update
operation without being inspected), so it is embedded as an opaque
payload. -/
structure WorkflowStatus where
  payload : String
deriving DecidableEq, Repr

/-- The pipeline a `CdWorkflow` belongs to: the fields of
`wfr.CdWorkflow.Pipeline` read by `SubscribeCD`. -/
structure Pipeline where
  appId : Int
  environmentId : Int
deriving DecidableEq, Repr

/-- The `wfr.CdWorkflow` fields read by `SubscribeCD`. -/
structure CdWorkflow where
  pipelineId : Int
  pipeline : Pipeline
deriving DecidableEq, Repr

/-- The `CdWorkflowRunner` record returned by
`cdWorkflowRepository.FindWorkflowRunnerById`: the workflow-type tag plus
the nested `CdWorkflow` detail used to build the event. -/
structure CdWorkflowRunner where
  workflowType : CdWorkflowType
  cdWorkflow : CdWorkflow
deriving DecidableEq, Repr

/-- A notification event, embedded as the record of the arguments the
handler passes to the event factory: the base fields given to
`eventFactory.Build` and the enrichment fields given to
`eventFactory.BuildExtraCDData`. -/
structure Event where
  eventType : EventType
  pipelineId : Int
  appId : Int
  environmentId : Int
  category : EventCategory
  runner : Option CdWorkflowRunner
  extraCiWorkflowId : Int
  stage : Option CdWorkflowType
deriving DecidableEq, Repr

/-- Modelled from the spec: `EventFactory.Build(eventType, pipelineId,
appId, envId, category)` is an external factory whose implementation is
not part of this unit (spec sections 1 and 6); it is modelled as building
the base event carrying exactly its arguments, with the enrichment fields
still empty. -/
def eventFactoryBuild (t : EventType) (pipelineId : Int) (appId : Int)
    (environmentId : Int) (category : EventCategory) : Event :=
  { eventType := t
    pipelineId := pipelineId
    appId := appId
    environmentId := environmentId
    category := category
    runner := none
    extraCiWorkflowId := 0
    stage := none }

/-- Modelled from the spec: `EventFactory.BuildExtraCDData(event, record,
extra, workflowType)` is the external enrichment step (spec sections 1 and
6); it is modelled as attaching the run record, the extra id, and the
stage tag to the event. -/
def eventFactoryBuildExtraCDData (e : Event) (wfr : CdWorkflowRunner)
    (extra : Int) (wt : CdWorkflowType) : Event :=
  { e with runner := some wfr, extraCiWorkflowId := extra, stage := some wt }

/-- Environment of one delivery on the build channel: the outcome of
`json.Unmarshal` and the outcome `ciHandler.UpdateWorkflow` would return
for the decoded status. -/
structure CiEnv where
  decodeResult : Except String WorkflowStatus
  updateResult : WorkflowStatus → Except String Int

/-- Observable effects of one delivery on the build channel. -/
structure CiTrace where
  ackCount : Nat
  updateCalls : List WorkflowStatus
  dispatchedEvents : List Event
deriving DecidableEq, Repr

/-- Body of the `Subscribe` callback (lines 81–95 of the Go file).
`defer msg.Ack()` acknowledges exactly once on every return path.  A
decode error logs and returns; otherwise `ciHandler.UpdateWorkflow` is
called once and an update error logs and returns.  No event is ever built
or written on this path. -/
def subscribeHandler (env : CiEnv) : CiTrace :=
  match env.decodeResult with
  | .error _ =>
      { ackCount := 1, updateCalls := [], dispatchedEvents := [] }
  | .ok wfStatus =>
      match env.updateResult wfStatus with
      | .error _ =>
          { ackCount := 1, updateCalls := [wfStatus], dispatchedEvents := [] }
      | .ok _ =>
          { ackCount := 1, updateCalls := [wfStatus], dispatchedEvents := [] }

/-- Environment of one delivery on the deploy channel: the outcome of
`json.Unmarshal`, the `(wfrId, wfrStatus)` outcome of
`cdHandler.UpdateWorkflow`, the outcome of
`cdWorkflowRepository.FindWorkflowRunnerById`, and the outcome
`eventClient.WriteEvent` would return for a dispatched event. -/
structure CdEnv where
  decodeResult : Except String WorkflowStatus
  updateResult : WorkflowStatus → Except String (Int × String)
  findRunnerResult : Int → Except String CdWorkflowRunner
  writeEventResult : Event → Except String Bool

/-- Observable effects of one delivery on the deploy channel. -/
structure CdTrace where
  ackCount : Nat
  updateCalls : List WorkflowStatus
  lookupCalls : List Int
  dispatchedEvents : List Event
deriving DecidableEq, Repr

/-- The classification / gating / dispatch tail of the `SubscribeCD`
callback (lines 127–153): the events written for a resolved runner `wfr`
and status string `wfrStatus`.  `eventType` starts as the zero value
`util.EventType(0)` and is reassigned inside the terminal guard exactly as
in the Go `if` / `else if` chain; the `WriteEvent` error `evtErr` is only
logged, so the write result does not influence the trace. -/
def cdDispatch (write : Event → Except String Bool)
    (wfrStatus : String) (wfr : CdWorkflowRunner) : List Event :=
  if wfrStatus = nodeSucceeded ∨ wfrStatus = nodeFailed ∨ wfrStatus = nodeError then
    let eventType0 := EventType.unset
    let eventType :=
      if wfrStatus = nodeSucceeded then EventType.success
      else if wfrStatus = nodeFailed ∨ wfrStatus = nodeError then EventType.fail
      else eventType0
    if wfr.workflowType = CdWorkflowType.pre then
      let event := eventFactoryBuild eventType wfr.cdWorkflow.pipelineId
        wfr.cdWorkflow.pipeline.appId wfr.cdWorkflow.pipeline.environmentId
        EventCategory.cd
      let event := eventFactoryBuildExtraCDData event wfr 0 CdWorkflowType.pre
      let _evtResult := write event
      [event]
    else if wfr.workflowType = CdWorkflowType.post then
      let event := eventFactoryBuild eventType wfr.cdWorkflow.pipelineId
        wfr.cdWorkflow.pipeline.appId wfr.cdWorkflow.pipeline.environmentId
        EventCategory.cd
      let event := eventFactoryBuildExtraCDData event wfr 0 CdWorkflowType.post
      let _evtResult := write event
      [event]
    else
      []
  else
    []

/-- Body of the `SubscribeCD` callback (lines 105–153 of the Go file).
`defer msg.Ack()` acknowledges exactly once on every return path.  Decode
error: log and return.  Update error: log and return.  Lookup error: log
and return.  Otherwise classify and conditionally dispatch via
`cdDispatch`. -/
def subscribeCDHandler (env : CdEnv) : CdTrace :=
  match env.decodeResult with
  | .error _ =>
      { ackCount := 1, updateCalls := [], lookupCalls := [],
        dispatchedEvents := [] }
  | .ok wfStatus =>
      match env.updateResult wfStatus with
      | .error _ =>
          { ackCount := 1, updateCalls := [wfStatus], lookupCalls := [],
            dispatchedEvents := [] }
      | .ok (wfrId, wfrStatus) =>
          match env.findRunnerResult wfrId with
          | .error _ =>
              { ackCount := 1, updateCalls := [wfStatus],
                lookupCalls := [wfrId], dispatchedEvents := [] }
          | .ok wfr =>
              { ackCount := 1, updateCalls := [wfStatus],
                lookupCalls := [wfrId],
                dispatchedEvents := cdDispatch env.writeEventResult wfrStatus wfr }

/-- Marker value for a successfully constructed
`WorkflowStatusUpdateHandlerImpl` (the Go constructor returns a pointer to
the impl on success, `nil` on failure). -/
structure WorkflowStatusUpdateHandlerImpl where
  started : Bool
deriving DecidableEq, Repr

/-- Registration outcomes of the two `QueueSubscribe` calls made at
startup. -/
structure RegistrationEnv where
  subscribeReg : Except String Unit
  subscribeCDReg : Except String Unit

/-- `Subscribe` (registration path, lines 97–101): a registration error is
logged and returned to the caller; success returns `nil` error. -/
def subscribeRegister (env : RegistrationEnv) : Except String Unit :=
  match env.subscribeReg with
  | .error e => .error e
  | .ok _ => .ok ()

/-- `SubscribeCD` (registration path, lines 156–160): same propagation
policy as `subscribeRegister`. -/
def subscribeCDRegister (env : RegistrationEnv) : Except String Unit :=
  match env.subscribeCDReg with
  | .error e => .error e
  | .ok _ => .ok ()

/-- `NewWorkflowStatusUpdateHandlerImpl` (lines 56–78): builds the impl,
calls `Subscribe`, and on error logs and returns `nil`; then calls
`SubscribeCD`, and on error logs and returns `nil`; only when both
registrations succeed is the impl returned. -/
def newWorkflowStatusUpdateHandlerImpl (env : RegistrationEnv) :
    Option WorkflowStatusUpdateHandlerImpl :=
  match subscribeRegister env with
  | .error _ => none
  | .ok _ =>
      match subscribeCDRegister env with
      | .error _ => none
      | .ok _ => some { started := true }

/-! ## Concrete sample inputs used by the witnesses -/

/-- A sample decoded workflow status. -/
def wsSample : WorkflowStatus := { payload := "wf" }

/-- A resolved Pre-stage run record with pipeline 7, app 3, env 9. -/
def runnerPre : CdWorkflowRunner :=
  { workflowType := CdWorkflowType.pre
    cdWorkflow := { pipelineId := 7, pipeline := { appId := 3, environmentId := 9 } } }

/-- A resolved Deploy-stage run record. -/
def runnerDeploy : CdWorkflowRunner :=
  { workflowType := CdWorkflowType.deploy
    cdWorkflow := { pipelineId := 7, pipeline := { appId := 3, environmentId := 9 } } }

/-- Deploy-channel delivery: decode ok, update yields `(11, "Succeeded")`,
lookup resolves a Pre-stage record, dispatch succeeds. -/
def cdEnvSucceededPre : CdEnv :=
  { decodeResult := Except.ok wsSample
    updateResult := fun _ => Except.ok (11, "Succeeded")
    findRunnerResult := fun _ => Except.ok runnerPre
    writeEventResult := fun _ => Except.ok true }

/-- Deploy-channel delivery whose record is Deploy-stage with a terminal
status. -/
def cdEnvFailedDeploy : CdEnv :=
  { decodeResult := Except.ok wsSample
    updateResult := fun _ => Except.ok (11, "Failed")
    findRunnerResult := fun _ => Except.ok runnerDeploy
    writeEventResult := fun _ => Except.ok true }

/-- Deploy-channel delivery whose status string is the non-terminal
`"Running"`. -/
def cdEnvRunning : CdEnv :=
  { decodeResult := Except.ok wsSample
    updateResult := fun _ => Except.ok (11, "Running")
    findRunnerResult := fun _ => Except.ok runnerPre
    writeEventResult := fun _ => Except.ok true }

/-- Deploy-channel delivery whose run-record lookup fails. -/
def cdEnvLookupFails : CdEnv :=
  { decodeResult := Except.ok wsSample
    updateResult := fun _ => Except.ok (11, "Succeeded")
    findRunnerResult := fun _ => Except.error "record not found"
    writeEventResult := fun _ => Except.ok true }

/-- Deploy-channel delivery whose payload does not decode. -/
def cdEnvMalformed : CdEnv :=
  { decodeResult := Except.error "invalid json"
    updateResult := fun _ => Except.ok (11, "Succeeded")
    findRunnerResult := fun _ => Except.ok runnerPre
    writeEventResult := fun _ => Except.ok true }

/-- Build-channel delivery whose payload does not decode. -/
def ciEnvMalformed : CiEnv :=
  { decodeResult := Except.error "invalid json"
    updateResult := fun _ => Except.ok 0 }

/-- Build-channel delivery that decodes fine. -/
def ciEnvOk : CiEnv :=
  { decodeResult := Except.ok wsSample
    updateResult := fun _ => Except.ok 0 }

/-! ## Helper lemmas -/

/-- `cdDispatch` writes no event or exactly one event. -/
theorem cdDispatch_nil_or_singleton (w : Event → Except String Bool)
    (s : String) (wfr : CdWorkflowRunner) :
    cdDispatch w s wfr = [] ∨ ∃ e : Event, cdDispatch w s wfr = [e] := by
  unfold cdDispatch
  dsimp only
  split
  · split
    · exact Or.inr ⟨_, rfl⟩
    · split
      · exact Or.inr ⟨_, rfl⟩
      · exact Or.inl rfl
  · exact Or.inl rfl

/-- On a terminal status and a Pre/Post runner, `cdDispatch` writes
exactly one event, whose event type follows the Succeeded/Failed/Error
mapping and whose stage is the workflow type of the runner. -/
theorem cdDispatch_terminal_pre_post (w : Event → Except String Bool)
    (s : String) (wfr : CdWorkflowRunner)
    (hterm : s = nodeSucceeded ∨ s = nodeFailed ∨ s = nodeError)
    (hwt : wfr.workflowType = CdWorkflowType.pre ∨
      wfr.workflowType = CdWorkflowType.post) :
    ∃ e : Event, cdDispatch w s wfr = [e] ∧
      e.eventType = (if s = nodeSucceeded then EventType.success
        else EventType.fail) ∧
      e.stage = some wfr.workflowType := by
  have hfe : ¬s = nodeSucceeded → s = nodeFailed ∨ s = nodeError := by
    intro hs
    rcases hterm with h | h | h
    · exact absurd h hs
    · exact Or.inl h
    · exact Or.inr h
  rcases hwt with hwt | hwt
  · have hval : cdDispatch w s wfr =
        [eventFactoryBuildExtraCDData
          (eventFactoryBuild
            (if s = nodeSucceeded then EventType.success
              else if s = nodeFailed ∨ s = nodeError then EventType.fail
              else EventType.unset)
            wfr.cdWorkflow.pipelineId wfr.cdWorkflow.pipeline.appId
            wfr.cdWorkflow.pipeline.environmentId EventCategory.cd)
          wfr 0 CdWorkflowType.pre] := by
      unfold cdDispatch
      rw [if_pos hterm]
      dsimp only
      rw [if_pos hwt]
    refine ⟨_, hval, ?_, ?_⟩
    · by_cases hs : s = nodeSucceeded
      · simp [hs, eventFactoryBuild, eventFactoryBuildExtraCDData]
      · simp [hs, hfe hs, eventFactoryBuild, eventFactoryBuildExtraCDData]
    · simp [eventFactoryBuild, eventFactoryBuildExtraCDData, hwt]
  · have hnpre : ¬wfr.workflowType = CdWorkflowType.pre := by
      rw [hwt]; intro h; cases h
    have hval : cdDispatch w s wfr =
        [eventFactoryBuildExtraCDData
          (eventFactoryBuild
            (if s = nodeSucceeded then EventType.success
              else if s = nodeFailed ∨ s = nodeError then EventType.fail
              else EventType.unset)
            wfr.cdWorkflow.pipelineId wfr.cdWorkflow.pipeline.appId
            wfr.cdWorkflow.pipeline.environmentId EventCategory.cd)
          wfr 0 CdWorkflowType.post] := by
      unfold cdDispatch
      rw [if_pos hterm]
      dsimp only
      rw [if_neg hnpre, if_pos hwt]
    refine ⟨_, hval, ?_, ?_⟩
    · by_cases hs : s = nodeSucceeded
      · simp [hs, eventFactoryBuild, eventFactoryBuildExtraCDData]
      · simp [hs, hfe hs, eventFactoryBuild, eventFactoryBuildExtraCDData]
    · simp [eventFactoryBuild, eventFactoryBuildExtraCDData, hwt]

/-- On a Deploy-type runner, `cdDispatch` writes nothing. -/
theorem cdDispatch_deploy_nil (w : Event → Except String Bool)
    (s : String) (wfr : CdWorkflowRunner)
    (hwt : wfr.workflowType = CdWorkflowType.deploy) :
    cdDispatch w s wfr = [] := by
  have hnpre : ¬wfr.workflowType = CdWorkflowType.pre := by
    rw [hwt]; intro h; cases h
  have hnpost : ¬wfr.workflowType = CdWorkflowType.post := by
    rw [hwt]; intro h; cases h
  unfold cdDispatch
  dsimp only
  rw [if_neg hnpre, if_neg hnpost]
  simp

/-- On a non-terminal status, `cdDispatch` writes nothing. -/
theorem cdDispatch_nonterminal_nil (w : Event → Except String Bool)
    (s : String) (wfr : CdWorkflowRunner)
    (hterm : ¬(s = nodeSucceeded ∨ s = nodeFailed ∨ s = nodeError)) :
    cdDispatch w s wfr = [] := by
  unfold cdDispatch
  rw [if_neg hterm]

/-- Every event `cdDispatch` writes carries event type Success or Fail. -/
theorem cdDispatch_eventType_set (w : Event → Except String Bool)
    (s : String) (wfr : CdWorkflowRunner) :
    ((cdDispatch w s wfr).all fun e =>
      e.eventType == EventType.success || e.eventType == EventType.fail) = true := by
  unfold cdDispatch
  dsimp only
  split
  · rename_i hterm
    have hcase : s = nodeSucceeded ∨ (s = nodeFailed ∨ s = nodeError) := by
      rcases hterm with h | h | h
      · exact Or.inl h
      · exact Or.inr (Or.inl h)
      · exact Or.inr (Or.inr h)
    split
    · rcases hcase with hs | hfe
      · simp [hs, eventFactoryBuild, eventFactoryBuildExtraCDData]
      · have hns : ¬s = nodeSucceeded := by
          rcases hfe with h | h <;> rcases hterm with h1 | h1 | h1 <;>
            simp_all [nodeSucceeded, nodeFailed, nodeError]
        simp [hns, hfe, eventFactoryBuild, eventFactoryBuildExtraCDData]
    · split
      · rcases hcase with hs | hfe
        · simp [hs, eventFactoryBuild, eventFactoryBuildExtraCDData]
        · have hns : ¬s = nodeSucceeded := by
            rcases hfe with h | h <;>
              simp_all [nodeSucceeded, nodeFailed, nodeError]
          simp [hns, hfe, eventFactoryBuild, eventFactoryBuildExtraCDData]
      · simp
  · simp

/-! ## Theorems for the claims -/

/-- Claim C1: for every message delivered on either subscription, the
handler acknowledges exactly once, unconditionally upon return, whatever
the outcome of decoding, the state-update handler, the run-record lookup,
or notification dispatch (`defer msg.Ack()` on every path). -/
theorem ack_exactly_once_per_message (ciEnv : CiEnv) (cdEnv : CdEnv) :
    (subscribeHandler ciEnv).ackCount = 1 ∧
    (subscribeCDHandler cdEnv).ackCount = 1 := by
  constructor
  · unfold subscribeHandler
    split
    · rfl
    · split <;> rfl
  · unfold subscribeCDHandler
    split
    · rfl
    · split
      · rfl
      · split <;> rfl

/-- Claim C2: a well-formed deploy-channel message whose update yields a
terminal status and whose resolved record is Pre or Post dispatches
exactly one notification, with event type Success for Succeeded and Fail
for Failed or Error, and with stage equal to the workflow
type of the record, namely the workflow
type. -/
theorem cd_terminal_pre_post_dispatches_once (env : CdEnv)
    (ws : WorkflowStatus) (wfrId : Int) (wfrStatus : String)
    (wfr : CdWorkflowRunner)
    (hdec : env.decodeResult = Except.ok ws)
    (hupd : env.updateResult ws = Except.ok (wfrId, wfrStatus))
    (hterm : wfrStatus = nodeSucceeded ∨ wfrStatus = nodeFailed ∨
      wfrStatus = nodeError)
    (hfind : env.findRunnerResult wfrId = Except.ok wfr)
    (hwt : wfr.workflowType = CdWorkflowType.pre ∨
      wfr.workflowType = CdWorkflowType.post) :
    ∃ e : Event,
      (subscribeCDHandler env).dispatchedEvents = [e] ∧
      e.eventType = (if wfrStatus = nodeSucceeded then EventType.success
        else EventType.fail) ∧
      e.stage = some wfr.workflowType := by
  simp only [subscribeCDHandler, hdec, hupd, hfind]
  exact cdDispatch_terminal_pre_post env.writeEventResult wfrStatus wfr hterm hwt

/-- Witness for claim C2 at the example of the spec: status Succeeded, record
Pre with pipeline 7, app 3, env 9. -/
theorem cd_terminal_pre_post_dispatches_once_witness :
    cdEnvSucceededPre.decodeResult = Except.ok wsSample ∧
    cdEnvSucceededPre.updateResult wsSample = Except.ok (11, "Succeeded") ∧
    ("Succeeded" = nodeSucceeded ∨ "Succeeded" = nodeFailed ∨
      "Succeeded" = nodeError) ∧
    cdEnvSucceededPre.findRunnerResult 11 = Except.ok runnerPre ∧
    (runnerPre.workflowType = CdWorkflowType.pre ∨
      runnerPre.workflowType = CdWorkflowType.post) ∧
    (∃ e : Event,
      (subscribeCDHandler cdEnvSucceededPre).dispatchedEvents = [e] ∧
      e.eventType = (if "Succeeded" = nodeSucceeded then EventType.success
        else EventType.fail) ∧
      e.stage = some runnerPre.workflowType) :=
  ⟨rfl, rfl, Or.inl rfl, rfl, Or.inl rfl,
    cd_terminal_pre_post_dispatches_once cdEnvSucceededPre wsSample 11
      "Succeeded" runnerPre rfl rfl (Or.inl rfl) rfl (Or.inl rfl)⟩

/-- `cdDispatch` writes at most one event per message. -/
theorem cdDispatch_length_le_one (w : Event → Except String Bool)
    (s : String) (wfr : CdWorkflowRunner) :
    (cdDispatch w s wfr).length ≤ 1 := by
  rcases cdDispatch_nil_or_singleton w s wfr with h | ⟨e, h⟩ <;> simp [h]

/-- Claim C3: a deploy-channel message whose resolved run record has
workflow type Deploy never dispatches a notification, terminal status or
not. -/
theorem cd_deploy_type_never_notifies (env : CdEnv) (ws : WorkflowStatus)
    (wfrId : Int) (wfrStatus : String) (wfr : CdWorkflowRunner)
    (hdec : env.decodeResult = Except.ok ws)
    (hupd : env.updateResult ws = Except.ok (wfrId, wfrStatus))
    (hfind : env.findRunnerResult wfrId = Except.ok wfr)
    (hwt : wfr.workflowType = CdWorkflowType.deploy) :
    (subscribeCDHandler env).dispatchedEvents = [] := by
  simp only [subscribeCDHandler, hdec, hupd, hfind]
  exact cdDispatch_deploy_nil env.writeEventResult wfrStatus wfr hwt

/-- Witness for claim C3: Deploy-stage record with terminal status
Failed dispatches nothing. -/
theorem cd_deploy_type_never_notifies_witness :
    cdEnvFailedDeploy.decodeResult = Except.ok wsSample ∧
    cdEnvFailedDeploy.updateResult wsSample = Except.ok (11, "Failed") ∧
    cdEnvFailedDeploy.findRunnerResult 11 = Except.ok runnerDeploy ∧
    runnerDeploy.workflowType = CdWorkflowType.deploy ∧
    (subscribeCDHandler cdEnvFailedDeploy).dispatchedEvents = [] :=
  ⟨rfl, rfl, rfl, rfl,
    cd_deploy_type_never_notifies cdEnvFailedDeploy wsSample 11 "Failed"
      runnerDeploy rfl rfl rfl rfl⟩

/-- Claim C4: a deploy-channel message whose update yields a non-terminal
status string (anything other than Succeeded, Failed, Error) dispatches no
notification, whatever workflow type the record has and whether or not the
lookup succeeds. -/
theorem cd_nonterminal_never_notifies (env : CdEnv) (ws : WorkflowStatus)
    (wfrId : Int) (wfrStatus : String)
    (hdec : env.decodeResult = Except.ok ws)
    (hupd : env.updateResult ws = Except.ok (wfrId, wfrStatus))
    (hterm : ¬(wfrStatus = nodeSucceeded ∨ wfrStatus = nodeFailed ∨
      wfrStatus = nodeError)) :
    (subscribeCDHandler env).dispatchedEvents = [] := by
  simp only [subscribeCDHandler, hdec, hupd]
  cases hf : env.findRunnerResult wfrId with
  | error e => rfl
  | ok wfr =>
      exact cdDispatch_nonterminal_nil env.writeEventResult wfrStatus wfr hterm

/-- Witness for claim C4 at the example status `"Running"`. -/
theorem cd_nonterminal_never_notifies_witness :
    cdEnvRunning.decodeResult = Except.ok wsSample ∧
    cdEnvRunning.updateResult wsSample = Except.ok (11, "Running") ∧
    ¬("Running" = nodeSucceeded ∨ "Running" = nodeFailed ∨
      "Running" = nodeError) ∧
    (subscribeCDHandler cdEnvRunning).dispatchedEvents = [] :=
  ⟨rfl, rfl, by decide,
    cd_nonterminal_never_notifies cdEnvRunning wsSample 11 "Running"
      rfl rfl (by decide)⟩

/-- Claim C5: when the run-record lookup fails, the deploy handler aborts:
no notification is dispatched, and the handler still returns normally and
acknowledges (the embedding is a total function, so no exception escapes
the handler body). -/
theorem cd_lookup_failure_aborts (env : CdEnv) (ws : WorkflowStatus)
    (wfrId : Int) (wfrStatus : String) (e : String)
    (hdec : env.decodeResult = Except.ok ws)
    (hupd : env.updateResult ws = Except.ok (wfrId, wfrStatus))
    (hfind : env.findRunnerResult wfrId = Except.error e) :
    (subscribeCDHandler env).dispatchedEvents = [] ∧
    (subscribeCDHandler env).ackCount = 1 := by
  simp only [subscribeCDHandler, hdec, hupd, hfind]
  exact ⟨by trivial, by trivial⟩

/-- Witness for claim C5: lookup returns a repository error. -/
theorem cd_lookup_failure_aborts_witness :
    cdEnvLookupFails.decodeResult = Except.ok wsSample ∧
    cdEnvLookupFails.updateResult wsSample = Except.ok (11, "Succeeded") ∧
    cdEnvLookupFails.findRunnerResult 11 = Except.error "record not found" ∧
    (subscribeCDHandler cdEnvLookupFails).dispatchedEvents = [] ∧
    (subscribeCDHandler cdEnvLookupFails).ackCount = 1 :=
  ⟨rfl, rfl, rfl,
    cd_lookup_failure_aborts cdEnvLookupFails wsSample 11 "Succeeded"
      "record not found" rfl rfl rfl⟩

/-- Claim C6: a malformed (undecodable) message on either channel invokes
no downstream operation, has no side effect in the trace, and is still
acknowledged: the resulting trace is exactly the ack-only trace. -/
theorem malformed_message_no_effects (ciEnv : CiEnv) (cdEnv : CdEnv)
    (e e' : String)
    (hci : ciEnv.decodeResult = Except.error e)
    (hcd : cdEnv.decodeResult = Except.error e') :
    subscribeHandler ciEnv =
      { ackCount := 1, updateCalls := [], dispatchedEvents := [] } ∧
    subscribeCDHandler cdEnv =
      { ackCount := 1, updateCalls := [], lookupCalls := [],
        dispatchedEvents := [] } := by
  constructor
  · simp only [subscribeHandler, hci]
  · simp only [subscribeCDHandler, hcd]

/-- Witness for claim C6: an undecodable payload on each channel. -/
theorem malformed_message_no_effects_witness :
    ciEnvMalformed.decodeResult = Except.error "invalid json" ∧
    cdEnvMalformed.decodeResult = Except.error "invalid json" ∧
    (subscribeHandler ciEnvMalformed =
      { ackCount := 1, updateCalls := [], dispatchedEvents := [] } ∧
    subscribeCDHandler cdEnvMalformed =
      { ackCount := 1, updateCalls := [], lookupCalls := [],
        dispatchedEvents := [] }) :=
  ⟨rfl, rfl,
    malformed_message_no_effects ciEnvMalformed cdEnvMalformed
      "invalid json" "invalid json" rfl rfl⟩

/-- Claim C7: a well-formed build-channel message invokes the update operation of the build
handler exactly once with the decoded status, and the
build path dispatches no notification whatever the update outcome. -/
theorem ci_wellformed_updates_once_never_notifies (env : CiEnv)
    (ws : WorkflowStatus)
    (hdec : env.decodeResult = Except.ok ws) :
    (subscribeHandler env).updateCalls = [ws] ∧
    (subscribeHandler env).dispatchedEvents = [] := by
  simp only [subscribeHandler, hdec]
  cases hu : env.updateResult ws with
  | error e => exact ⟨rfl, rfl⟩
  | ok r => exact ⟨rfl, rfl⟩

/-- Witness for claim C7: a decodable build-status payload. -/
theorem ci_wellformed_updates_once_never_notifies_witness :
    ciEnvOk.decodeResult = Except.ok wsSample ∧
    ((subscribeHandler ciEnvOk).updateCalls = [wsSample] ∧
      (subscribeHandler ciEnvOk).dispatchedEvents = []) :=
  ⟨rfl, ci_wellformed_updates_once_never_notifies ciEnvOk wsSample rfl⟩

/-- Claim C8: `Subscribe` and `SubscribeCD` propagate a registration error
to their caller, and the constructor yields a handler value exactly when
both registrations succeed — a failure on either channel makes
initialization fail (the constructor returns nothing). -/
theorem registration_failure_fatal (env : RegistrationEnv) :
    subscribeRegister env = env.subscribeReg ∧
    subscribeCDRegister env = env.subscribeCDReg ∧
    ((newWorkflowStatusUpdateHandlerImpl env).isSome = true ↔
      env.subscribeReg = Except.ok () ∧ env.subscribeCDReg = Except.ok ()) := by
  refine ⟨?_, ?_, ?_⟩
  · unfold subscribeRegister
    cases h : env.subscribeReg with
    | error e => rfl
    | ok u => cases u; rfl
  · unfold subscribeCDRegister
    cases h : env.subscribeCDReg with
    | error e => rfl
    | ok u => cases u; rfl
  · unfold newWorkflowStatusUpdateHandlerImpl subscribeRegister subscribeCDRegister
    cases h1 : env.subscribeReg with
    | error e => simp
    | ok u =>
        cases u
        cases h2 : env.subscribeCDReg with
        | error e => simp
        | ok u =>
            cases u
            simp

/-- Claim C9: the notification-dispatch outcome never changes the
observable behaviour of the handler: the trace is identical for any dispatch
result (the error is only logged, never escalated), dispatch is attempted
at most once per message, and the message is still acknowledged. -/
theorem dispatch_error_logged_only (env : CdEnv)
    (w : Event → Except String Bool) :
    subscribeCDHandler { env with writeEventResult := w } =
      subscribeCDHandler env ∧
    (subscribeCDHandler env).dispatchedEvents.length ≤ 1 ∧
    (subscribeCDHandler env).ackCount = 1 := by
  refine ⟨?_, ?_, ?_⟩
  · unfold subscribeCDHandler
    dsimp only
    cases hd : env.decodeResult with
    | error e => rfl
    | ok ws =>
        cases hu : env.updateResult ws with
        | error e => rfl
        | ok p =>
            obtain ⟨wfrId, wfrStatus⟩ := p
            cases hf : env.findRunnerResult wfrId with
            | error e => rfl
            | ok wfr => rfl
  · unfold subscribeCDHandler
    split
    · simp
    · split
      · simp
      · split
        · simp
        · exact cdDispatch_length_le_one env.writeEventResult _ _
  · unfold subscribeCDHandler
    split
    · rfl
    · split
      · rfl
      · split <;> rfl

/-- Claim C10: every event the deploy handler actually dispatches carries
event type Success or Fail; the unset default with which the local
variable is initialised never reaches event construction, because the
terminal guard is exactly the union of the two mapping cases. -/
theorem dispatched_events_carry_success_or_fail (env : CdEnv) :
    ((subscribeCDHandler env).dispatchedEvents.all fun e =>
      e.eventType == EventType.success || e.eventType == EventType.fail)
      = true := by
  unfold subscribeCDHandler
  split
  · rfl
  · split
    · rfl
    · split
      · rfl
      · exact cdDispatch_eventType_set env.writeEventResult _ _

end Devtron
